import Mathlib

set_option maxRecDepth 4000

/-!
Shallow embedding of the core of the AI document-management service:
the bootstrap sequencer (`safe_import_and_init` in app_safe.py and
app_minimal.py) and the multi-tier query resolver (`demo_ask` in
app_minimal.py).  External capabilities (module imports, directory
creation, subsystem constructors, the AI client's two generation
methods and the knowledge-index search) are modelled as oracles that
either return a value or fault with a message, mirroring Python
exceptions; Python try/except blocks become explicit matches on
`Except`, with the exception value carrying the global state that the
interpreter would retain at the moment of the raise.
-/

namespace MinistryQA

/-- Python's substring operator `pat in s`, used by demo_ask to detect
the generic-failure marker inside generated text. -/
def strContains (s pat : String) : Bool :=
  (List.range (s.toList.length + 1)).any fun i =>
    pat.toList.isPrefixOf (s.toList.drop i)

/-- The generic-failure marker string demo_ask checks for
(app_minimal.py lines 174 and 179). -/
def genericMarker : String := "texniki problem var"

/-- Behaviour of an `EnhancedAIAssistant` instance on one request:
each method either returns text or raises. -/
structure AIClient where
  generate_enhanced_response : Except String String
  generate_response : Except String String
  deriving Repr

/-- Behaviour of an `EnhancedKnowledgeBase` instance on one request. -/
structure KnowledgeBase where
  search : Except String String
  deriving Repr

/-- The module-level component globals demo_ask reads. -/
structure SystemState where
  file_manager : Bool
  knowledge_base : Option KnowledgeBase
  ai_assistant : Option AIClient
  deriving Repr

/-- `knowledge_base.search(question)`: calling through a `None` global
raises an AttributeError, which the surrounding try/except catches. -/
def kbSearch (st : SystemState) : Except String String :=
  match st.knowledge_base with
  | none => Except.error "AttributeError: NoneType object has no attribute search"
  | some kb => kb.search

/-- One invocation of a tier's underlying operation inside demo_ask. -/
inductive TierOp where
  | primaryAI
  | secondaryAI
  | kbSearchOp
  deriving DecidableEq, Repr

/-- Which strategy produced the final answer text of demo_ask. -/
inductive Tier where
  | primaryAI
  | secondaryAI
  | knowledgeSearch
  | failed
  deriving DecidableEq, Repr

/-- The JSON responses the demo_ask route can produce. -/
inductive DemoResponse where
  | serviceUnavailable (fm kb ai : Bool)
  | badRequest
  | answer (question text : String)
  | serverError (msg : String)
  deriving DecidableEq, Repr

/-- Result of one demo_ask call: the HTTP-level response, the tier that
produced an answer (when one was produced), and the ordered trace of
tier operations that were invoked. -/
structure DemoResult where
  response : DemoResponse
  tier : Option Tier
  trace : List TierOp
  deriving DecidableEq, Repr

/-- The `except Exception as ai_error` handler of demo_ask
(app_minimal.py lines 184-190): fall back to a direct knowledge-base
search; if that also raises, build the aggregated diagnostic text. -/
def aiFallback (st : SystemState) (aiError : String) (ops : List TierOp) :
    String × Tier × List TierOp :=
  match kbSearch st with
  | Except.ok kbResponse =>
      ("Məlumat bazasından tapılan nəticələr:\n\n" ++ kbResponse,
        Tier.knowledgeSearch, ops ++ [TierOp.kbSearchOp])
  | Except.error kbError =>
      ("Xəta baş verdi: AI Error: " ++ aiError ++ ", KB Error: " ++ kbError,
        Tier.failed, ops ++ [TierOp.kbSearchOp])

/-- The tier ladder of demo_ask (app_minimal.py lines 169-190): rich
response, then — if the text contains the marker — the simple response,
then — if the text still contains the marker — a knowledge-base search;
any exception inside this try block goes to `aiFallback`. -/
def resolveTiers (st : SystemState) (ai : AIClient) :
    String × Tier × List TierOp :=
  match ai.generate_enhanced_response with
  | Except.error e => aiFallback st e [TierOp.primaryAI]
  | Except.ok r1 =>
    if strContains r1 genericMarker then
      match ai.generate_response with
      | Except.error e => aiFallback st e [TierOp.primaryAI, TierOp.secondaryAI]
      | Except.ok r2 =>
        if strContains r2 genericMarker then
          match kbSearch st with
          | Except.error e =>
              aiFallback st e
                [TierOp.primaryAI, TierOp.secondaryAI, TierOp.kbSearchOp]
          | Except.ok kbResponse =>
              ("Tapılan məlumatlar:\n\n" ++ kbResponse, Tier.knowledgeSearch,
                [TierOp.primaryAI, TierOp.secondaryAI, TierOp.kbSearchOp])
        else (r2, Tier.secondaryAI, [TierOp.primaryAI, TierOp.secondaryAI])
    else (r1, Tier.primaryAI, [TierOp.primaryAI])

/-- Body of the demo_ask route inside its outermost try
(app_minimal.py lines 139-197).  The request body models
`request.get_json()`: it may raise (`Except.error`), return no usable
JSON (`none`), return JSON without a question (`some none`), or carry a
question string. -/
def demo_ask_inner (st : SystemState)
    (body : Except String (Option (Option String))) : Except String DemoResult :=
  match st.ai_assistant with
  | none =>
      Except.ok
        ⟨DemoResponse.serviceUnavailable st.file_manager
            st.knowledge_base.isSome false, none, []⟩
  | some ai =>
    match body with
    | Except.error e => Except.error e
    | Except.ok none => Except.ok ⟨DemoResponse.badRequest, none, []⟩
    | Except.ok (some none) => Except.ok ⟨DemoResponse.badRequest, none, []⟩
    | Except.ok (some (some q)) =>
      match resolveTiers st ai with
      | (text, tier, ops) =>
          Except.ok ⟨DemoResponse.answer q text, some tier, ops⟩

/-- demo_ask with its outermost `except Exception` boundary
(app_minimal.py lines 199-205): every escaping fault becomes a 500
response, so the route itself never raises — the error case of this
`Except` is what a raise past the boundary would be. -/
def demo_ask_exc (st : SystemState)
    (body : Except String (Option (Option String))) : Except String DemoResult :=
  match demo_ask_inner st body with
  | Except.ok r => Except.ok r
  | Except.error e => Except.ok ⟨DemoResponse.serverError e, none, []⟩

/-- The demo_ask route as its caller sees it. -/
def demo_ask (st : SystemState)
    (body : Except String (Option (Option String))) : DemoResult :=
  match demo_ask_exc st body with
  | Except.ok r => r
  | Except.error e => ⟨DemoResponse.serverError e, none, []⟩

/-- The environment the bootstrap sequencer runs against: what each
module import, directory creation and subsystem constructor would do,
and the value of the GEMINI_API_KEY environment variable. -/
structure BootEnv where
  import_file_manager : Except String Unit
  import_models : Except String Unit
  import_config : Except String Unit
  makedirs : Except String Unit
  new_file_manager : Except String Unit
  new_knowledge_base : Except String Unit
  new_user_manager : Except String Unit
  gemini_api_key : Option String
  new_ai_assistant : Except String Unit
  deriving Repr

/-- Python truthiness of `os.environ.get('GEMINI_API_KEY')`: both an
unset variable and an empty string are falsy. -/
def keyTruthy (k : Option String) : Bool :=
  match k with
  | none => false
  | some s => !(s == "")

/-- One bootstrap-managed subsystem kind. -/
inductive Subsys where
  | documentStore
  | knowledgeIndex
  | userStore
  | aiClient
  deriving DecidableEq, Repr

/-- Outcome of one bootstrap run: the four component globals, the
returned `components_ready` flag, the printed log lines, and the
ordered list of subsystem constructions that were actually invoked. -/
structure BootResult where
  file_manager : Option Unit
  knowledge_base : Option Unit
  user_manager : Option Unit
  ai_assistant : Option Unit
  components_ready : Bool
  log : List String
  attempted : List Subsys
  deriving Repr

/-- An exception escaping the outer try of `safe_import_and_init`,
together with the global/log/attempt state the Python interpreter holds
at the moment of the raise (globals set before the raise persist). -/
structure BootFail where
  msg : String
  file_manager : Option Unit
  knowledge_base : Option Unit
  log : List String
  attempted : List Subsys
  deriving Repr

/-- The guarded user-manager step of app_safe.py (lines 40-48): a
failure is swallowed and the slot left `None`. -/
def umStep (env : BootEnv) : Option Unit × List String :=
  match env.new_user_manager with
  | Except.ok _ => (some (), ["✅ User manager initialized"])
  | Except.error e => (none, ["⚠️ User manager failed: " ++ e])

/-- The guarded AI-assistant step shared by app_safe.py (lines 50-61)
and app_minimal.py (lines 38-49): with a truthy key the constructor is
invoked and a failure swallowed; without one the constructor is never
invoked and a warning is printed. -/
def aiStep (env : BootEnv) : Option Unit × List String × List Subsys :=
  if keyTruthy env.gemini_api_key then
    match env.new_ai_assistant with
    | Except.ok _ =>
        (some (), ["✅ AI assistant initialized"], [Subsys.aiClient])
    | Except.error e =>
        (none, ["⚠️ AI assistant failed: " ++ e], [Subsys.aiClient])
  else (none, ["⚠️ GEMINI_API_KEY not found"], [])

/-- Tail of app_safe.py's try block once file manager and knowledge
base are up: the two guarded steps, then `return True`. -/
def app_safe_tail (env : BootEnv) : BootResult :=
  { file_manager := some ()
    knowledge_base := some ()
    user_manager := (umStep env).1
    ai_assistant := (aiStep env).1
    components_ready := true
    log := ["✅ File manager initialized", "✅ Knowledge base initialized"]
            ++ (umStep env).2 ++ (aiStep env).2.1
            ++ ["✅ Components initialization completed"]
    attempted := [Subsys.documentStore, Subsys.knowledgeIndex, Subsys.userStore]
                  ++ (aiStep env).2.2 }

/-- The outer try block of app_safe.py's `safe_import_and_init`
(lines 21-64): imports, directory creation, the file manager and the
knowledge base run unguarded, so any fault there escapes to the outer
except handler carrying the state accumulated so far. -/
def app_safe_try (env : BootEnv) : Except BootFail BootResult :=
  match env.import_file_manager with
  | Except.error e => Except.error ⟨e, none, none, [], []⟩
  | Except.ok _ =>
  match env.import_models with
  | Except.error e => Except.error ⟨e, none, none, [], []⟩
  | Except.ok _ =>
  match env.import_config with
  | Except.error e => Except.error ⟨e, none, none, [], []⟩
  | Except.ok _ =>
  match env.makedirs with
  | Except.error e => Except.error ⟨e, none, none, [], []⟩
  | Except.ok _ =>
  match env.new_file_manager with
  | Except.error e => Except.error ⟨e, none, none, [], [Subsys.documentStore]⟩
  | Except.ok _ =>
  match env.new_knowledge_base with
  | Except.error e =>
      Except.error ⟨e, some (), none, ["✅ File manager initialized"],
        [Subsys.documentStore, Subsys.knowledgeIndex]⟩
  | Except.ok _ => Except.ok (app_safe_tail env)

/-- The outer except handler of app_safe.py (lines 66-80): log the
critical error, then retry just the file-manager import and
construction inside a fresh guard, and return False. -/
def app_safe_handler (env : BootEnv) (f : BootFail) : BootResult :=
  match env.import_file_manager with
  | Except.error fe =>
      { file_manager := f.file_manager
        knowledge_base := f.knowledge_base
        user_manager := none
        ai_assistant := none
        components_ready := false
        log := f.log ++ ["❌ Critical error in initialization: " ++ f.msg,
                "❌ Fallback failed: " ++ fe]
        attempted := f.attempted }
  | Except.ok _ =>
    match env.new_file_manager with
    | Except.ok _ =>
        { file_manager := some ()
          knowledge_base := f.knowledge_base
          user_manager := none
          ai_assistant := none
          components_ready := false
          log := f.log ++ ["❌ Critical error in initialization: " ++ f.msg,
                  "✅ Fallback: Basic file manager initialized"]
          attempted := f.attempted ++ [Subsys.documentStore] }
    | Except.error fe =>
        { file_manager := f.file_manager
          knowledge_base := f.knowledge_base
          user_manager := none
          ai_assistant := none
          components_ready := false
          log := f.log ++ ["❌ Critical error in initialization: " ++ f.msg,
                  "❌ Fallback failed: " ++ fe]
          attempted := f.attempted ++ [Subsys.documentStore] }

/-- app_safe.py's `safe_import_and_init` with its outer try/except
boundary made visible: the error case is what a raise past the
function would be, and the handler turns every fault into a normal
False-result. -/
def app_safe_boot_exc (env : BootEnv) : Except String BootResult :=
  match app_safe_try env with
  | Except.ok r => Except.ok r
  | Except.error f => Except.ok (app_safe_handler env f)

/-- app_safe.py's `safe_import_and_init` as its caller sees it. -/
def safe_import_and_init (env : BootEnv) : BootResult :=
  match app_safe_boot_exc env with
  | Except.ok r => r
  | Except.error _ =>
      { file_manager := none, knowledge_base := none, user_manager := none,
        ai_assistant := none, components_ready := false, log := [],
        attempted := [] }

/-- Tail of app_minimal.py's try block (no user-manager step; the
user_manager global is never assigned there). -/
def app_minimal_tail (env : BootEnv) : BootResult :=
  { file_manager := some ()
    knowledge_base := some ()
    user_manager := none
    ai_assistant := (aiStep env).1
    components_ready := true
    log := ["✅ File manager initialized", "✅ Knowledge base initialized"]
            ++ (aiStep env).2.1 ++ ["✅ Core components initialization completed"]
    attempted := [Subsys.documentStore, Subsys.knowledgeIndex] ++ (aiStep env).2.2 }

/-- The outer try block of app_minimal.py's `safe_import_and_init`
(lines 21-52): like app_safe.py but with no config import and no
user-manager step. -/
def app_minimal_try (env : BootEnv) : Except BootFail BootResult :=
  match env.import_file_manager with
  | Except.error e => Except.error ⟨e, none, none, [], []⟩
  | Except.ok _ =>
  match env.import_models with
  | Except.error e => Except.error ⟨e, none, none, [], []⟩
  | Except.ok _ =>
  match env.makedirs with
  | Except.error e => Except.error ⟨e, none, none, [], []⟩
  | Except.ok _ =>
  match env.new_file_manager with
  | Except.error e => Except.error ⟨e, none, none, [], [Subsys.documentStore]⟩
  | Except.ok _ =>
  match env.new_knowledge_base with
  | Except.error e =>
      Except.error ⟨e, some (), none, ["✅ File manager initialized"],
        [Subsys.documentStore, Subsys.knowledgeIndex]⟩
  | Except.ok _ => Except.ok (app_minimal_tail env)

/-- app_minimal.py's `safe_import_and_init` with its boundary visible;
its except handler (lines 54-58) only logs and returns False, keeping
whatever globals were already set. -/
def app_minimal_boot_exc (env : BootEnv) : Except String BootResult :=
  match app_minimal_try env with
  | Except.ok r => Except.ok r
  | Except.error f =>
      Except.ok
        { file_manager := f.file_manager
          knowledge_base := f.knowledge_base
          user_manager := none
          ai_assistant := none
          components_ready := false
          log := f.log ++ ["❌ Critical error in initialization: " ++ f.msg]
          attempted := f.attempted }

/-- app_minimal.py's `safe_import_and_init` as its caller sees it. -/
def safe_import_and_init_minimal (env : BootEnv) : BootResult :=
  match app_minimal_boot_exc env with
  | Except.ok r => r
  | Except.error _ =>
      { file_manager := none, knowledge_base := none, user_manager := none,
        ai_assistant := none, components_ready := false, log := [],
        attempted := [] }

/-- An environment where every import and constructor succeeds and a
non-empty API key is configured. -/
def okEnv : BootEnv :=
  { import_file_manager := Except.ok ()
    import_models := Except.ok ()
    import_config := Except.ok ()
    makedirs := Except.ok ()
    new_file_manager := Except.ok ()
    new_knowledge_base := Except.ok ()
    new_user_manager := Except.ok ()
    gemini_api_key := some "AIza-demo-key"
    new_ai_assistant := Except.ok () }

/-- `okEnv` with a faulting knowledge-base constructor. -/
def kbFailEnv : BootEnv :=
  { okEnv with new_knowledge_base := Except.error "knowledge base constructor failed" }

/-- `okEnv` with GEMINI_API_KEY unset. -/
def noKeyEnv : BootEnv :=
  { okEnv with gemini_api_key := none }

/-- A marker-containing text such as the Gemini client emits when it
cannot produce a grounded answer. -/
def markerText : String := "Bağışlayın, hazırda texniki problem var."

/-- An AI client whose both methods return the generic-failure marker. -/
def markerClient : AIClient :=
  { generate_enhanced_response := Except.ok markerText
    generate_response := Except.ok markerText }

/-- An AI client whose rich method raises and whose simple method would
answer fine. -/
def faultClient : AIClient :=
  { generate_enhanced_response := Except.error "TimeoutError: request timed out"
    generate_response := Except.ok "Cavab: qəbul saatları bazar ertəsi." }

/-- A knowledge base answering the working-hours question. -/
def hoursKB : KnowledgeBase :=
  { search := Except.ok "İş saatları: 09:00-18:00" }

/-- A knowledge base whose search raises. -/
def failKB : KnowledgeBase :=
  { search := Except.error "disk read failure" }

/-- Components state with no AI assistant but a working knowledge base. -/
def noAIState : SystemState :=
  { file_manager := true, knowledge_base := some hoursKB, ai_assistant := none }

/-- State where both AI methods return the marker and the search faults. -/
def markerFaultState : SystemState :=
  { file_manager := true, knowledge_base := some failKB,
    ai_assistant := some markerClient }

/-- State where both AI methods return the marker and the search works. -/
def markerOkState : SystemState :=
  { file_manager := true, knowledge_base := some hoursKB,
    ai_assistant := some markerClient }

/-- State where the rich AI method raises and the search works. -/
def faultOkState : SystemState :=
  { file_manager := true, knowledge_base := some hoursKB,
    ai_assistant := some faultClient }

/-- State where both AI methods return the marker and the search
returns an empty result set. -/
def emptyKBState : SystemState :=
  { file_manager := true, knowledge_base := some { search := Except.ok "" },
    ai_assistant := some markerClient }

/-- A request body carrying one question. -/
def askBody (q : String) : Except String (Option (Option String)) :=
  Except.ok (some (some q))

/-- Helper: the only operation traces the resolver ladder can emit. -/
theorem resolveTiers_trace_mem (st : SystemState) (ai : AIClient) :
    (resolveTiers st ai).2.2 ∈
      [[TierOp.primaryAI],
        [TierOp.primaryAI, TierOp.secondaryAI],
        [TierOp.primaryAI, TierOp.kbSearchOp],
        [TierOp.primaryAI, TierOp.secondaryAI, TierOp.kbSearchOp],
        [TierOp.primaryAI, TierOp.secondaryAI, TierOp.kbSearchOp,
          TierOp.kbSearchOp]] := by
  rcases h1 : ai.generate_enhanced_response with e1 | r1 <;>
    rcases hkb : kbSearch st with ek | sk <;>
    simp [resolveTiers, aiFallback, h1, hkb]
  all_goals cases hm1 : strContains r1 genericMarker <;> simp [hm1]
  all_goals rcases h2 : ai.generate_response with e2 | r2 <;> simp [h2]
  all_goals cases hm2 : strContains r2 genericMarker <;> simp [hm2]

/-- Claim C1, counterexample: with the AI client slot absent and a
working knowledge index, demo_ask answers with the 503
service-unavailable response; no KnowledgeSearch-tier outcome is
produced and the knowledge index is never queried, contrary to the
claim. -/
theorem C1_counterexample :
    demo_ask noAIState (askBody "What are the working hours?")
      = ⟨DemoResponse.serviceUnavailable true true false, none, []⟩
    ∧ (demo_ask noAIState (askBody "What are the working hours?")).tier
        ≠ some Tier.knowledgeSearch
    ∧ TierOp.kbSearchOp
        ∉ (demo_ask noAIState (askBody "What are the working hours?")).trace := by
  refine ⟨rfl, by decide, by decide⟩

/-- Claim C1, amended: for every request in which the AI client slot is
not Ready, demo_ask attempts no tier at all — not even KnowledgeSearch —
and returns the 503 service-unavailable response. -/
theorem C1_not_ready_returns_503 (st : SystemState)
    (body : Except String (Option (Option String)))
    (h : st.ai_assistant = none) :
    demo_ask st body
      = ⟨DemoResponse.serviceUnavailable st.file_manager
            st.knowledge_base.isSome false, none, []⟩ := by
  simp [demo_ask, demo_ask_exc, demo_ask_inner, h]

/-- Witness for the amended C1 theorem at a concrete state. -/
theorem C1_witness :
    demo_ask noAIState (askBody "What are the working hours?")
      = ⟨DemoResponse.serviceUnavailable true true false, none, []⟩ :=
  C1_not_ready_returns_503 noAIState (askBody "What are the working hours?") rfl

/-- Claim C3, counterexample: the AI client is Ready and PrimaryAI
raises a fault, yet SecondaryAI is never attempted — the resolver goes
directly to the knowledge search. -/
theorem C3_counterexample :
    (demo_ask faultOkState (askBody "q")).trace
      = [TierOp.primaryAI, TierOp.kbSearchOp]
    ∧ TierOp.secondaryAI ∉ (demo_ask faultOkState (askBody "q")).trace := by
  refine ⟨by decide, by decide⟩

/-- Claim C3, amended: when PrimaryAI raises a fault, the resolver
skips SecondaryAI and goes directly to the knowledge search; only a
marker-containing return value leads to SecondaryAI. -/
theorem C3_fault_skips_secondary (st : SystemState) (ai : AIClient)
    (q e : String) (hai : st.ai_assistant = some ai)
    (he : ai.generate_enhanced_response = Except.error e) :
    TierOp.secondaryAI ∉ (demo_ask st (askBody q)).trace
    ∧ (demo_ask st (askBody q)).trace
        = [TierOp.primaryAI, TierOp.kbSearchOp] := by
  cases h : kbSearch st <;>
    simp [demo_ask, demo_ask_exc, demo_ask_inner, resolveTiers, aiFallback,
      askBody, hai, he, h]

/-- Witness for the amended C3 theorem at a concrete state. -/
theorem C3_witness :
    TierOp.secondaryAI ∉ (demo_ask faultOkState (askBody "q")).trace
    ∧ (demo_ask faultOkState (askBody "q")).trace
        = [TierOp.primaryAI, TierOp.kbSearchOp] :=
  C3_fault_skips_secondary faultOkState faultClient "q"
    "TimeoutError: request timed out" rfl rfl

/-- Claim C5, counterexample: both AI tiers return the generic-failure
marker and the knowledge search faults; the outcome carries no errors
log at all, and its answer text concatenates only the two captured
knowledge-search fault messages — the AI tiers' marker texts do not
appear in it. -/
theorem C5_counterexample :
    (demo_ask markerFaultState (askBody "q")).response
      = DemoResponse.answer "q"
          "Xəta baş verdi: AI Error: disk read failure, KB Error: disk read failure"
    ∧ (demo_ask markerFaultState (askBody "q")).tier = some Tier.failed
    ∧ strContains
        "Xəta baş verdi: AI Error: disk read failure, KB Error: disk read failure"
        markerText = false := by
  refine ⟨by decide, by decide, by decide⟩

/-- Claim C5, amended: when both AI tiers return the generic-failure
marker and the knowledge search faults, the search is retried once by
the except handler, the outcome is Failed, and the answer text is
exactly the diagnostic concatenating the two captured search faults —
there is no three-entry errors log. -/
theorem C5_double_fault_diagnostic (st : SystemState) (ai : AIClient)
    (q t1 t2 e : String) (hai : st.ai_assistant = some ai)
    (h1 : ai.generate_enhanced_response = Except.ok t1)
    (hm1 : strContains t1 genericMarker = true)
    (h2 : ai.generate_response = Except.ok t2)
    (hm2 : strContains t2 genericMarker = true)
    (hkb : kbSearch st = Except.error e) :
    demo_ask st (askBody q)
      = ⟨DemoResponse.answer q
            ("Xəta baş verdi: AI Error: " ++ e ++ ", KB Error: " ++ e),
          some Tier.failed,
          [TierOp.primaryAI, TierOp.secondaryAI, TierOp.kbSearchOp,
            TierOp.kbSearchOp]⟩ := by
  simp [demo_ask, demo_ask_exc, demo_ask_inner, resolveTiers, aiFallback,
    askBody, hai, h1, hm1, h2, hm2, hkb]

/-- Witness for the amended C5 theorem at a concrete state. -/
theorem C5_witness :
    demo_ask markerFaultState (askBody "q")
      = ⟨DemoResponse.answer "q"
            ("Xəta baş verdi: AI Error: " ++ "disk read failure"
              ++ ", KB Error: " ++ "disk read failure"),
          some Tier.failed,
          [TierOp.primaryAI, TierOp.secondaryAI, TierOp.kbSearchOp,
            TierOp.kbSearchOp]⟩ :=
  C5_double_fault_diagnostic markerFaultState markerClient "q"
    markerText markerText "disk read failure" rfl rfl (by decide) rfl
    (by decide) rfl

/-- Claim C6, counterexample: on the path where both AI tiers return
the marker and the search faults, the knowledge-index search is invoked
twice within one request. -/
theorem C6_counterexample :
    (demo_ask markerFaultState (askBody "q")).trace
      = [TierOp.primaryAI, TierOp.secondaryAI, TierOp.kbSearchOp,
          TierOp.kbSearchOp]
    ∧ (demo_ask markerFaultState (askBody "q")).trace.count TierOp.kbSearchOp
        = 2 := by
  refine ⟨by decide, by decide⟩

/-- Claim C6, amended: PrimaryAI and SecondaryAI are each attempted at
most once per request, and the knowledge-index search at most twice
(twice exactly on the retry path); the possible operation traces are a
fixed finite set, so transitions are deterministic in the inputs. -/
theorem C6_trace_shapes (st : SystemState)
    (body : Except String (Option (Option String))) :
    (demo_ask st body).trace ∈
      [([] : List TierOp),
        [TierOp.primaryAI],
        [TierOp.primaryAI, TierOp.secondaryAI],
        [TierOp.primaryAI, TierOp.kbSearchOp],
        [TierOp.primaryAI, TierOp.secondaryAI, TierOp.kbSearchOp],
        [TierOp.primaryAI, TierOp.secondaryAI, TierOp.kbSearchOp,
          TierOp.kbSearchOp]] := by
  cases hai : st.ai_assistant with
  | none => simp [demo_ask, demo_ask_exc, demo_ask_inner, hai]
  | some ai =>
    rcases body with e | o
    · simp [demo_ask, demo_ask_exc, demo_ask_inner, hai]
    · rcases o with _ | oq
      · simp [demo_ask, demo_ask_exc, demo_ask_inner, hai]
      · rcases oq with _ | q
        · simp [demo_ask, demo_ask_exc, demo_ask_inner, hai]
        · have h := resolveTiers_trace_mem st ai
          simp only [List.mem_cons, List.not_mem_nil, or_false] at h ⊢
          simp [demo_ask, demo_ask_exc, demo_ask_inner, hai]
          tauto

/-- Claim C9: AI client Ready, both AI methods return marker-containing
text, the knowledge search returns s without fault — the outcome is the
KnowledgeSearch tier and the answer is s prefixed with the
results-found framing, for every s including the empty one. -/
theorem C9_marker_marker_search (st : SystemState) (ai : AIClient)
    (q t1 t2 s : String) (hai : st.ai_assistant = some ai)
    (h1 : ai.generate_enhanced_response = Except.ok t1)
    (hm1 : strContains t1 genericMarker = true)
    (h2 : ai.generate_response = Except.ok t2)
    (hm2 : strContains t2 genericMarker = true)
    (hkb : kbSearch st = Except.ok s) :
    demo_ask st (askBody q)
      = ⟨DemoResponse.answer q ("Tapılan məlumatlar:\n\n" ++ s),
          some Tier.knowledgeSearch,
          [TierOp.primaryAI, TierOp.secondaryAI, TierOp.kbSearchOp]⟩ := by
  simp [demo_ask, demo_ask_exc, demo_ask_inner, resolveTiers, askBody,
    hai, h1, hm1, h2, hm2, hkb]

/-- Witness for the C9 theorem at a concrete state with an empty search
result. -/
theorem C9_witness :
    demo_ask emptyKBState (askBody "What are the working hours?")
      = ⟨DemoResponse.answer "What are the working hours?"
            ("Tapılan məlumatlar:\n\n" ++ ""),
          some Tier.knowledgeSearch,
          [TierOp.primaryAI, TierOp.secondaryAI, TierOp.kbSearchOp]⟩ :=
  C9_marker_marker_search emptyKBState markerClient
    "What are the working hours?" markerText markerText "" rfl rfl
    (by decide) rfl (by decide) rfl

/-- Claim C10: for the same search result s, the KnowledgeSearch answer
text depends on how the tier was entered — marker path versus fault
path use different framing strings, and the two answers always differ. -/
theorem C10_framing_depends_on_path (st1 st2 : SystemState)
    (ai1 ai2 : AIClient) (q1 q2 t1 t2 e s : String)
    (hai1 : st1.ai_assistant = some ai1)
    (h1 : ai1.generate_enhanced_response = Except.ok t1)
    (hm1 : strContains t1 genericMarker = true)
    (h2 : ai1.generate_response = Except.ok t2)
    (hm2 : strContains t2 genericMarker = true)
    (hkb1 : kbSearch st1 = Except.ok s)
    (hai2 : st2.ai_assistant = some ai2)
    (he : ai2.generate_enhanced_response = Except.error e)
    (hkb2 : kbSearch st2 = Except.ok s) :
    (demo_ask st1 (askBody q1)).response
      = DemoResponse.answer q1 ("Tapılan məlumatlar:\n\n" ++ s)
    ∧ (demo_ask st2 (askBody q2)).response
      = DemoResponse.answer q2
          ("Məlumat bazasından tapılan nəticələr:\n\n" ++ s)
    ∧ "Tapılan məlumatlar:\n\n" ++ s
      ≠ "Məlumat bazasından tapılan nəticələr:\n\n" ++ s := by
  refine ⟨?_, ?_, ?_⟩
  · simp [demo_ask, demo_ask_exc, demo_ask_inner, resolveTiers, askBody,
      hai1, h1, hm1, h2, hm2, hkb1]
  · simp [demo_ask, demo_ask_exc, demo_ask_inner, resolveTiers, aiFallback,
      askBody, hai2, he, hkb2]
  · intro hcontra
    have hlen := congrArg String.length hcontra
    rw [String.length_append, String.length_append] at hlen
    have l1 : ("Tapılan məlumatlar:\n\n").length = 21 := rfl
    have l2 : ("Məlumat bazasından tapılan nəticələr:\n\n").length = 39 := rfl
    rw [l1, l2] at hlen
    omega

/-- Witness for the C10 theorem at concrete states sharing one search
result. -/
theorem C10_witness :
    (demo_ask markerOkState (askBody "q1")).response
      = DemoResponse.answer "q1"
          ("Tapılan məlumatlar:\n\n" ++ "İş saatları: 09:00-18:00")
    ∧ (demo_ask faultOkState (askBody "q2")).response
      = DemoResponse.answer "q2"
          ("Məlumat bazasından tapılan nəticələr:\n\n"
            ++ "İş saatları: 09:00-18:00")
    ∧ "Tapılan məlumatlar:\n\n" ++ "İş saatları: 09:00-18:00"
      ≠ "Məlumat bazasından tapılan nəticələr:\n\n"
          ++ "İş saatları: 09:00-18:00" :=
  C10_framing_depends_on_path markerOkState faultOkState markerClient
    faultClient "q1" "q2" markerText markerText
    "TimeoutError: request timed out" "İş saatları: 09:00-18:00" rfl rfl
    (by decide) rfl (by decide) rfl rfl rfl rfl

/-- Claim C2, counterexample: a construction failure in the knowledge
index (subsystem 2) aborts the sequence — the user store and AI client
are never attempted; only the document store is re-attempted by the
fallback of the except handler. -/
theorem C2_counterexample :
    (safe_import_and_init kbFailEnv).attempted
      = [Subsys.documentStore, Subsys.knowledgeIndex, Subsys.documentStore]
    ∧ Subsys.userStore ∉ (safe_import_and_init kbFailEnv).attempted
    ∧ Subsys.aiClient ∉ (safe_import_and_init kbFailEnv).attempted
    ∧ (safe_import_and_init kbFailEnv).file_manager = some () := by
  refine ⟨by decide, by decide, by decide, by decide⟩

/-- Claim C2, amended: the isolation holds only for the last two
subsystems — once the document store and knowledge index have been
constructed, every later construction failure (user store or AI
client) leaves their Ready status unchanged and does not prevent the
remaining subsystems from being attempted, and all four subsystems are
attempted in the fixed order. -/
theorem C2_isolation_last_two (env : BootEnv)
    (h1 : env.import_file_manager = Except.ok ())
    (h2 : env.import_models = Except.ok ())
    (h3 : env.import_config = Except.ok ())
    (h4 : env.makedirs = Except.ok ())
    (h5 : env.new_file_manager = Except.ok ())
    (h6 : env.new_knowledge_base = Except.ok ())
    (h7 : keyTruthy env.gemini_api_key = true) :
    (safe_import_and_init env).file_manager = some ()
    ∧ (safe_import_and_init env).knowledge_base = some ()
    ∧ (safe_import_and_init env).attempted
      = [Subsys.documentStore, Subsys.knowledgeIndex, Subsys.userStore,
          Subsys.aiClient]
    ∧ (safe_import_and_init env).components_ready = true := by
  cases hu : env.new_user_manager <;> cases ha : env.new_ai_assistant <;>
    simp [safe_import_and_init, app_safe_boot_exc, app_safe_try,
      app_safe_tail, aiStep, umStep, h1, h2, h3, h4, h5, h6, h7, hu, ha]

/-- Witness for the amended C2 theorem at a concrete environment. -/
theorem C2_witness :
    (safe_import_and_init okEnv).file_manager = some ()
    ∧ (safe_import_and_init okEnv).knowledge_base = some ()
    ∧ (safe_import_and_init okEnv).attempted
      = [Subsys.documentStore, Subsys.knowledgeIndex, Subsys.userStore,
          Subsys.aiClient]
    ∧ (safe_import_and_init okEnv).components_ready = true :=
  C2_isolation_last_two okEnv rfl rfl rfl rfl rfl rfl (by decide)

/-- Claim C4: in both app variants, the returned components_ready flag
is true exactly when the document-store and knowledge-index slots are
both Ready, whatever happened to the user store and the AI client. -/
theorem C4_components_ready_iff (env : BootEnv) :
    ((safe_import_and_init env).components_ready = true
      ↔ ((safe_import_and_init env).file_manager.isSome = true
          ∧ (safe_import_and_init env).knowledge_base.isSome = true))
    ∧ ((safe_import_and_init_minimal env).components_ready = true
      ↔ ((safe_import_and_init_minimal env).file_manager.isSome = true
          ∧ (safe_import_and_init_minimal env).knowledge_base.isSome
              = true)) := by
  constructor
  · rcases h1 : env.import_file_manager with e1 | u1 <;>
    rcases h2 : env.import_models with e2 | u2 <;>
    rcases h3 : env.import_config with e3 | u3 <;>
    rcases h4 : env.makedirs with e4 | u4 <;>
    rcases h5 : env.new_file_manager with e5 | u5 <;>
    rcases h6 : env.new_knowledge_base with e6 | u6 <;>
    simp [safe_import_and_init, app_safe_boot_exc, app_safe_try,
      app_safe_handler, app_safe_tail, h1, h2, h3, h4, h5, h6]
  · rcases h1 : env.import_file_manager with e1 | u1 <;>
    rcases h2 : env.import_models with e2 | u2 <;>
    rcases h4 : env.makedirs with e4 | u4 <;>
    rcases h5 : env.new_file_manager with e5 | u5 <;>
    rcases h6 : env.new_knowledge_base with e6 | u6 <;>
    simp [safe_import_and_init_minimal, app_minimal_boot_exc,
      app_minimal_try, app_minimal_tail, h1, h2, h4, h5, h6]

/-- Claim C7: neither bootstrap variant nor the demo_ask route ever
lets a fault escape past its boundary — the boundary functions always
return an ok value. -/
theorem C7_boundaries_total (env : BootEnv) (st : SystemState)
    (body : Except String (Option (Option String))) :
    (app_safe_boot_exc env).isOk = true
    ∧ (app_minimal_boot_exc env).isOk = true
    ∧ (demo_ask_exc st body).isOk = true := by
  refine ⟨?_, ?_, ?_⟩
  · cases h : app_safe_try env <;> simp [app_safe_boot_exc, h, Except.isOk,
      Except.toBool]
  · cases h : app_minimal_try env <;> simp [app_minimal_boot_exc, h,
      Except.isOk, Except.toBool]
  · cases h : demo_ask_inner st body <;> simp [demo_ask_exc, h,
      Except.isOk, Except.toBool]

/-- Claim C8, counterexample: with the credential absent the AI-client
constructor is never invoked (a branch distinct from the construction
failure path), nothing containing the reason "credential not
configured" is ever recorded — the log line is the different
"GEMINI_API_KEY not found" — while components_ready stays true. -/
theorem C8_counterexample :
    (safe_import_and_init noKeyEnv).ai_assistant = none
    ∧ Subsys.aiClient ∉ (safe_import_and_init noKeyEnv).attempted
    ∧ (safe_import_and_init noKeyEnv).components_ready = true
    ∧ ((safe_import_and_init noKeyEnv).log.any
        (fun m => strContains m "credential not configured")) = false
    ∧ "⚠️ GEMINI_API_KEY not found" ∈ (safe_import_and_init noKeyEnv).log := by
  refine ⟨by decide, by decide, by decide, by decide, by decide⟩

/-- Claim C8, amended: in both app variants, a missing or empty
credential takes a dedicated non-failure branch: the constructor is
never invoked, the slot is left absent with the warning
"GEMINI_API_KEY not found" recorded, and components_ready remains true
when the document store and knowledge index succeeded. -/
theorem C8_missing_key_branch (env : BootEnv)
    (h1 : env.import_file_manager = Except.ok ())
    (h2 : env.import_models = Except.ok ())
    (h3 : env.import_config = Except.ok ())
    (h4 : env.makedirs = Except.ok ())
    (h5 : env.new_file_manager = Except.ok ())
    (h6 : env.new_knowledge_base = Except.ok ())
    (h7 : keyTruthy env.gemini_api_key = false) :
    (safe_import_and_init env).ai_assistant = none
    ∧ Subsys.aiClient ∉ (safe_import_and_init env).attempted
    ∧ "⚠️ GEMINI_API_KEY not found" ∈ (safe_import_and_init env).log
    ∧ (safe_import_and_init env).components_ready = true
    ∧ (safe_import_and_init_minimal env).ai_assistant = none
    ∧ Subsys.aiClient ∉ (safe_import_and_init_minimal env).attempted
    ∧ "⚠️ GEMINI_API_KEY not found" ∈ (safe_import_and_init_minimal env).log
    ∧ (safe_import_and_init_minimal env).components_ready = true := by
  cases hu : env.new_user_manager <;>
    simp [safe_import_and_init, app_safe_boot_exc, app_safe_try,
      app_safe_tail, safe_import_and_init_minimal, app_minimal_boot_exc,
      app_minimal_try, app_minimal_tail, aiStep, umStep,
      h1, h2, h3, h4, h5, h6, h7, hu]

/-- Witness for the amended C8 theorem at a concrete environment. -/
theorem C8_witness :
    (safe_import_and_init noKeyEnv).ai_assistant = none
    ∧ Subsys.aiClient ∉ (safe_import_and_init noKeyEnv).attempted
    ∧ "⚠️ GEMINI_API_KEY not found" ∈ (safe_import_and_init noKeyEnv).log
    ∧ (safe_import_and_init noKeyEnv).components_ready = true
    ∧ (safe_import_and_init_minimal noKeyEnv).ai_assistant = none
    ∧ Subsys.aiClient ∉ (safe_import_and_init_minimal noKeyEnv).attempted
    ∧ "⚠️ GEMINI_API_KEY not found"
        ∈ (safe_import_and_init_minimal noKeyEnv).log
    ∧ (safe_import_and_init_minimal noKeyEnv).components_ready = true :=
  C8_missing_key_branch noKeyEnv rfl rfl rfl rfl rfl rfl rfl

end MinistryQA
